import Mathlib

/-!
Shallow embedding of the radiology DICOM backend (`src/main.py`, `src/schemas.py`).

Machine floating point (`np.float32`) is modelled by exact rationals `ℚ`; every
linear transform performed by the code is exact on the values of interest.
`astype(np.uint8)` on a non-negative float is truncation, modelled by `Int.floor`
followed by `Int.toNat`.  Images (`numpy` 2-D arrays) are `List (List ℚ)` of
samples; elementwise numpy operations are `List.map` of the per-sample map.
-/

/-- Model of `np.clip(x, lo, hi)` for scalars: `min (max x lo) hi`. -/
def clipQ (x lo hi : ℚ) : ℚ := min (max x lo) hi

/-- Model of the final line of `_rescale_to_uint8`:
`(a * 255.0).clip(0, 255).astype(np.uint8)` applied to a single sample.
`astype(np.uint8)` truncates toward zero; the clipped value is non-negative,
so truncation is `Int.floor`. -/
def toUint8 (x : ℚ) : ℕ := (Int.floor (clipQ (x * 255) 0 255)).toNat

/-- Per-sample windowing branch of `_rescale_to_uint8` (lines 83-87 of
`src/main.py`): clip to `[lo, hi]` with `lo = center - width/2`,
`hi = center + width/2`, then map `[lo, hi]` to `[0, 1]`. -/
def windowSample (c w v : ℚ) : ℚ :=
  (clipQ v (c - w / 2) (c + w / 2) - (c - w / 2)) / ((c + w / 2) - (c - w / 2))

/-- Per-sample min/max fallback branch of `_rescale_to_uint8` (lines 88-94):
`a * 0` when `mx == mn`, else `(a - mn) / (mx - mn)`. -/
def minmaxSample (mn mx v : ℚ) : ℚ :=
  if mx = mn then v * 0 else (v - mn) / (mx - mn)

/-- Minimum of a list of samples; `numpy.min` over a non-empty array.  The `[]`
default is irrelevant: the decoder contract excludes empty pixel data. -/
def listMin : List ℚ → ℚ
  | [] => 0
  | x :: xs => xs.foldl min x

/-- Maximum of a list of samples; `numpy.max` over a non-empty array. -/
def listMax : List ℚ → ℚ
  | [] => 0
  | x :: xs => xs.foldl max x

/-- Model of `float(a.min())` over a 2-D array. -/
def imgMin (img : List (List ℚ)) : ℚ := listMin img.flatten

/-- Model of `float(a.max())` over a 2-D array. -/
def imgMax (img : List (List ℚ)) : ℚ := listMax img.flatten

/-- Model of `_rescale_to_uint8(arr, window_center, window_width)`
(`src/main.py` lines 77-97).  The windowing branch is taken exactly when both
parameters are present and `window_width > 0`; otherwise the whole-image
min/max fallback is used. -/
def rescale_to_uint8 (img : List (List ℚ))
    (window_center window_width : Option ℚ) : List (List ℕ) :=
  match window_center, window_width with
  | some c, some w =>
    if 0 < w then
      img.map (List.map fun v => toUint8 (windowSample c w v))
    else
      img.map (List.map fun v => toUint8 (minmaxSample (imgMin img) (imgMax img) v))
  | _, _ =>
      img.map (List.map fun v => toUint8 (minmaxSample (imgMin img) (imgMax img) v))

/-- Boolean record of which branch `_rescale_to_uint8` takes: `true` exactly
when windowing is applied. -/
def windowApplied : Option ℚ → Option ℚ → Bool
  | some _, some w => decide (0 < w)
  | _, _ => false

/-- Model of a raw DICOM tag value as seen through the dynamic `getattr`
interface: `toStr` is `str(value)` (total in practice), `toInt` is the result
of `int(value)` (`none` models a raised `ValueError`/`TypeError`), `toFloat`
the result of `float(value)` (on the first element for MultiValue tags, as
lines 132/134 do). -/
structure TagVal where
  toStr : String
  toInt : Option ℤ
  toFloat : Option ℚ
deriving Repr, DecidableEq

/-- Model of the parsed `pydicom` dataset: each tag is either absent
(`hasattr` false / `getattr` default) or a raw value whose coercions may
fail.  `pixelData` is `none` when the file has no pixel-data element, in
which case `ds.pixel_array` raises. -/
structure Dataset where
  PatientID : Option TagVal := none
  PatientName : Option TagVal := none
  Modality : Option TagVal := none
  StudyDate : Option TagVal := none
  SeriesDescription : Option TagVal := none
  InstanceNumber : Option TagVal := none
  WindowCenter : Option TagVal := none
  WindowWidth : Option TagVal := none
  RescaleSlope : Option TagVal := none
  RescaleIntercept : Option TagVal := none
  PhotometricInterpretation : Option TagVal := none
  Rows : Option TagVal := none
  Columns : Option TagVal := none
  BitsAllocated : Option TagVal := none
  pixelData : Option (List (List ℚ)) := none
deriving Repr

/-- Model of the helper `g(tag, default=None)` (lines 108-112): returns
`str(getattr(ds, tag))` when the tag is present, the default `None`
otherwise; its `try/except` never lets a fault escape. -/
def g (t : Option TagVal) : Option String := t.map TagVal.toStr

/-- Model of the `instance_number` extraction (lines 119-123): `int(...)`
guarded by its own `try/except`, degrading to `None` on failure. -/
def instanceNumberOf (t : Option TagVal) : Option ℤ := t.bind TagVal.toInt

/-- Model of the window extraction block (lines 125-136).  Both coercions sit
in one `try/except: pass`; a failing `float(wc...)` aborts before
`window_width` is ever assigned, while a failing `float(ww...)` leaves the
already-assigned `window_center` in place. -/
def extractWindow (wc ww : Option TagVal) : Option ℚ × Option ℚ :=
  match wc with
  | some v =>
    match v.toFloat with
    | none => (none, none)
    | some c =>
      match ww with
      | some u => (some c, u.toFloat)
      | none => (some c, none)
  | none =>
    match ww with
    | some u => (none, u.toFloat)
    | none => (none, none)

/-- Coercion of `float(getattr(ds, "RescaleSlope", 1.0))`: the `getattr`
default `1.0` always coerces; a present tag coerces iff `toFloat` succeeds. -/
def slopeOf (t : Option TagVal) : Option ℚ :=
  match t with
  | none => some 1
  | some v => v.toFloat

/-- Coercion of `float(getattr(ds, "RescaleIntercept", 0.0))`. -/
def interceptOf (t : Option TagVal) : Option ℚ :=
  match t with
  | none => some 0
  | some v => v.toFloat

/-- Model of the rescale block (lines 140-147): on any coercion failure the
`except: pass` leaves `arr` untouched (identity fallback); otherwise
`arr.astype(np.float32) * slope + intercept` elementwise.  `ℚ` plays the role
of the wide floating-point type. -/
def applyRescale (slopeTag interceptTag : Option TagVal)
    (arr : List (List ℚ)) : List (List ℚ) :=
  match slopeOf slopeTag with
  | none => arr
  | some s =>
    match interceptOf interceptTag with
    | none => arr
    | some i => arr.map (List.map fun v => v * s + i)

/-- Model of the polarity step (lines 151-154): invert the already-8-bit
samples exactly when the photometric interpretation string is
`"MONOCHROME1"`. -/
def applyPolarity (pi : Option String) (img : List (List ℕ)) : List (List ℕ) :=
  if pi = some "MONOCHROME1" then img.map (List.map fun v => 255 - v) else img

/-- Model of `int(getattr(ds, "Rows", img8.shape[0]))` (line 156): the shape
default always coerces, but a present malformed tag raises and the exception
is NOT caught locally. -/
def coerceIntTag (t : Option TagVal) (dflt : ℤ) : Except String ℤ :=
  match t with
  | none => .ok dflt
  | some v =>
    match v.toInt with
    | some n => .ok n
    | none => .error "invalid literal for int()"

/-- Test of whether `int(getattr(ds, tag, default))` completes without
raising: true when the tag is absent (the defaults are ints) or when the
present value coerces. -/
def intCoercible : Option TagVal → Bool
  | none => true
  | some v => v.toInt.isSome

/-- Relative path `images/{uid}.png` (line 169). -/
def imgRelOf (uid : String) : String := "images/" ++ uid ++ ".png"

/-- Relative path `thumbnails/{uid}.png` (line 170). -/
def thumbRelOf (uid : String) : String := "thumbnails/" ++ uid ++ ".png"

/-- Persisted path `/media/images/{uid}.png` (line 187). -/
def imagePathOf (uid : String) : String := "/media/" ++ imgRelOf uid

/-- Persisted path `/media/thumbnails/{uid}.png` (line 188). -/
def thumbPathOf (uid : String) : String := "/media/" ++ thumbRelOf uid

/-- Model of Pillow's `round_aspect(number, key)` inside `Image.thumbnail`:
`max(min(floor(number), ceil(number), key=key), 1)`, where Python's `min`
keeps the first argument (the floor) on ties. -/
def roundAspect (number : ℚ) (key : ℤ → ℚ) : ℤ :=
  max (if key (Int.floor number) ≤ key (Int.ceil number)
       then Int.floor number else Int.ceil number) 1

/-- Model of `PIL.Image.thumbnail((256, 256))` on an image of size
`(w, h) = (width, height)`: a no-op when the image already fits in the box,
otherwise a downscale preserving aspect ratio, with the rounded dimension
chosen by `round_aspect` and floored at 1. -/
def pilThumbnail (w h : ℕ) : ℕ × ℕ :=
  if w ≤ 256 ∧ h ≤ 256 then (w, h)
  else
    let aspect : ℚ := (w : ℚ) / (h : ℚ)
    if aspect ≤ (256 : ℚ) / 256 then
      ((roundAspect (256 * aspect) fun n => |aspect - (n : ℚ) / 256|).toNat, 256)
    else
      (256, (roundAspect (256 / aspect)
        fun n => if n = 0 then 0 else |aspect - 256 / (n : ℚ)|).toNat)

/-- Persisted record shape: the `meta` dict of lines 174-189, matching the
`Study` schema fields it populates. -/
structure Meta where
  patient_id : Option String
  patient_name : Option String
  modality : Option String
  study_date : Option String
  series_description : Option String
  instance_number : Option ℤ
  rows : ℤ
  cols : ℤ
  bits_allocated : ℤ
  photometric_interpretation : Option String
  window_center : Option ℚ
  window_width : Option ℚ
  image_path : String
  thumbnail_path : String
deriving Repr, DecidableEq

/-- Everything `_dicom_to_png_and_meta` produces: the returned `meta` dict,
the 8-bit image written to `images/{uid}.png`, and the size
`(width, height)` of the thumbnail written to `thumbnails/{uid}.png`. -/
structure RenderOut where
  meta : Meta
  img : List (List ℕ)
  thumbSize : ℕ × ℕ
deriving Repr, DecidableEq

/-- Model of `_dicom_to_png_and_meta(content)` (lines 100-190), with the
parsed dataset standing for `pydicom.dcmread` output and `uid` standing for
the `uuid.uuid4().hex` draw.  Steps in source order: fault-tolerant tag
extraction, window coercion, `pixel_array`, rescale, `_rescale_to_uint8`,
polarity, `Rows`/`Columns`/`BitsAllocated` coercion (uncaught exceptions!),
thumbnail, file writes, meta assembly. -/
def dicom_to_png_and_meta (ds : Dataset) (uid : String) :
    Except String RenderOut := do
  let wcww := extractWindow ds.WindowCenter ds.WindowWidth
  let arr ← match ds.pixelData with
    | some a => Except.ok a
    | none => Except.error "no pixel data"
  let arr := applyRescale ds.RescaleSlope ds.RescaleIntercept arr
  let img8 := rescale_to_uint8 arr wcww.1 wcww.2
  let img8 := applyPolarity (g ds.PhotometricInterpretation) img8
  let rows ← coerceIntTag ds.Rows (img8.length : ℤ)
  let cols ← coerceIntTag ds.Columns ((img8.headD []).length : ℤ)
  let bits ← coerceIntTag ds.BitsAllocated 16
  let thumb := pilThumbnail (img8.headD []).length img8.length
  Except.ok
    { meta :=
      { patient_id := g ds.PatientID
        patient_name := g ds.PatientName
        modality := g ds.Modality
        study_date := g ds.StudyDate
        series_description := g ds.SeriesDescription
        instance_number := instanceNumberOf ds.InstanceNumber
        rows := rows
        cols := cols
        bits_allocated := bits
        photometric_interpretation := g ds.PhotometricInterpretation
        window_center := wcww.1
        window_width := wcww.2
        image_path := imagePathOf uid
        thumbnail_path := thumbPathOf uid }
      img := img8
      thumbSize := thumb }

/-- Observable persistent state: files written under the media root and
records created through `create_document`. -/
structure SysState where
  files : List String
  records : List Meta
deriving Repr, DecidableEq

/-- Model of the `upload_dicom` endpoint (lines 193-205).  `input` is `none`
when `dcmread` fails on the uploaded bytes; `createOk` is whether
`create_document` succeeds.  Any exception is caught and re-raised as a
single `HTTPException` whose detail prepends `"Failed to process DICOM: "`
to the cause.  The two PNG files are written inside
`_dicom_to_png_and_meta`, before `create_document` runs. -/
def upload_dicom (st : SysState) (input : Option Dataset) (uid : String)
    (createOk : Bool) : SysState × Except String Meta :=
  match input with
  | none => (st, .error ("Failed to process DICOM: " ++ "cannot read DICOM file"))
  | some ds =>
    match dicom_to_png_and_meta ds uid with
    | .error e => (st, .error ("Failed to process DICOM: " ++ e))
    | .ok out =>
      let written : SysState :=
        ⟨st.files ++ [imgRelOf uid, thumbRelOf uid], st.records⟩
      if createOk then
        (⟨written.files, written.records ++ [out.meta]⟩, .ok out.meta)
      else
        (written, .error ("Failed to process DICOM: " ++ "create_document failed"))

/-- Projection of a render result onto the normalized image it writes. -/
def renderImg (e : Except String RenderOut) : Option (List (List ℕ)) :=
  match e with
  | .ok o => some o.img
  | .error _ => none

/-- Projection of a render result onto the persisted meta record. -/
def renderMeta (e : Except String RenderOut) : Option Meta :=
  match e with
  | .ok o => some o.meta
  | .error _ => none

/-- Decidable success test for the pipeline result. -/
def renderOk (e : Except String RenderOut) : Bool :=
  match e with
  | .ok _ => true
  | .error _ => false

/-- Synthetic 16-bit 2x2 study from the end-to-end scenario:
`WindowCenter=128`, `WindowWidth=256`, `RescaleSlope=1`,
`RescaleIntercept=0`, `PhotometricInterpretation=MONOCHROME2`, raw samples
`[0, 128, 256, 512]`. -/
def ds3 : Dataset :=
  { WindowCenter := some ⟨"128", some 128, some 128⟩
    WindowWidth := some ⟨"256", some 256, some 256⟩
    RescaleSlope := some ⟨"1", some 1, some 1⟩
    RescaleIntercept := some ⟨"0", some 0, some 0⟩
    PhotometricInterpretation := some ⟨"MONOCHROME2", none, none⟩
    Rows := some ⟨"2", some 2, some 2⟩
    Columns := some ⟨"2", some 2, some 2⟩
    BitsAllocated := some ⟨"16", some 16, some 16⟩
    pixelData := some [[0, 128], [256, 512]] }

/-- Same study as `ds3` except the `Rows` tag is malformed: `int()` on it
raises. -/
def ds6 : Dataset :=
  { ds3 with Rows := some ⟨"oops", none, none⟩ }

/-- Same study as `ds3` except `WindowCenter` fails `float()` coercion while
`WindowWidth` would coerce fine. -/
def ds10 : Dataset :=
  { ds3 with WindowCenter := some ⟨"abc", none, none⟩ }

/-- Every value `_rescale_to_uint8` emits is at most 255: the final
`.clip(0, 255)` bounds the float above by 255 before truncation. -/
theorem toUint8_le (x : ℚ) : toUint8 x ≤ 255 := by
  have h : clipQ (x * 255) 0 255 ≤ (255 : ℚ) := min_le_right _ _
  have h2 : Int.floor (clipQ (x * 255) 0 255) ≤ (255 : ℤ) := by
    have h3 := Int.floor_le_floor h
    have h4 : Int.floor (255 : ℚ) = (255 : ℤ) := by norm_num
    omega
  simp only [toUint8]
  omega

theorem toUint8_zero : toUint8 0 = 0 := by
  norm_num [toUint8, clipQ, min_def, max_def]

theorem toUint8_one : toUint8 1 = 255 := by
  norm_num [toUint8, clipQ, min_def, max_def]
  rfl

/-- Clipping from below: a sample at or below the window floor clips to it. -/
theorem clipQ_of_le (v lo hi : ℚ) (hv : v ≤ lo) (hlh : lo ≤ hi) :
    clipQ v lo hi = lo := by
  simp [clipQ, max_eq_right hv, min_eq_left hlh]

/-- Clipping from above: a sample at or above the window ceiling clips to it. -/
theorem clipQ_of_ge (v lo hi : ℚ) (hv : hi ≤ v) (hlh : lo ≤ hi) :
    clipQ v lo hi = hi := by
  have : lo ≤ v := hlh.trans hv
  simp [clipQ, max_eq_left this, min_eq_right hv]

/-- C1: for every real-valued image and every window with `width > 0`, the
normalizer clips each sample to `[lo, hi]` with `lo = center - width/2` and
`hi = center + width/2` before dividing; every output sample lies in
`[0, 255]` (outputs are `ℕ`, so `0 ≤` is automatic), every sample at or below
`lo` maps to `0`, and every sample at or above `hi` maps to `255`. -/
theorem window_normalize_saturates (c w : ℚ) (hw : 0 < w)
    (img : List (List ℚ)) (v : ℚ) :
    rescale_to_uint8 img (some c) (some w)
      = img.map (List.map fun u => toUint8 (windowSample c w u)) ∧
    windowSample c w v
      = (clipQ v (c - w / 2) (c + w / 2) - (c - w / 2))
          / ((c + w / 2) - (c - w / 2)) ∧
    toUint8 (windowSample c w v) ≤ 255 ∧
    (v ≤ c - w / 2 → toUint8 (windowSample c w v) = 0) ∧
    (c + w / 2 ≤ v → toUint8 (windowSample c w v) = 255) ∧
    (∀ row ∈ rescale_to_uint8 img (some c) (some w), ∀ u ∈ row, u ≤ 255) := by
  have hlh : c - w / 2 ≤ c + w / 2 := by linarith
  have hne : (c + w / 2) - (c - w / 2) ≠ 0 := by
    intro h
    have : w = 0 := by linarith [sub_eq_zero.mp h]
    exact hw.ne' this
  have hbranch : rescale_to_uint8 img (some c) (some w)
      = img.map (List.map fun u => toUint8 (windowSample c w u)) := by
    simp [rescale_to_uint8, hw]
  refine ⟨hbranch, rfl, toUint8_le _, ?_, ?_, ?_⟩
  · intro hv
    have hclip : clipQ v (c - w / 2) (c + w / 2) = c - w / 2 :=
      clipQ_of_le v _ _ hv hlh
    simp [windowSample, hclip, toUint8_zero]
  · intro hv
    have hclip : clipQ v (c - w / 2) (c + w / 2) = c + w / 2 :=
      clipQ_of_ge v _ _ hv hlh
    have : windowSample c w v = 1 := by
      simp only [windowSample, hclip]
      exact div_self hne
    rw [this, toUint8_one]
  · intro row hrow u hu
    rw [hbranch] at hrow
    obtain ⟨r, _, rfl⟩ := List.mem_map.mp hrow
    obtain ⟨x, _, rfl⟩ := List.mem_map.mp hu
    exact toUint8_le _

/-- Witness for C1 at `center = 128`, `width = 256`: a sample at `-5 ≤ lo = 0`
maps to `0` and a sample at `999 ≥ hi = 256` maps to `255`. -/
theorem window_normalize_saturates_witness :
    (0 : ℚ) < 256 ∧
    toUint8 (windowSample 128 256 (-5)) = 0 ∧
    toUint8 (windowSample 128 256 999) = 255 :=
  ⟨by norm_num,
   (window_normalize_saturates 128 256 (by norm_num) [[5]] (-5)).2.2.2.1
     (by norm_num),
   (window_normalize_saturates 128 256 (by norm_num) [[5]] 999).2.2.2.2.1
     (by norm_num)⟩

theorem foldl_min_const (k : ℚ) (l : List ℚ) (h : ∀ v ∈ l, v = k) :
    l.foldl min k = k := by
  induction l with
  | nil => rfl
  | cons x xs ih =>
    have hx : x = k := h x (List.mem_cons_self x xs)
    simp only [List.foldl_cons, hx, min_self]
    exact ih fun v hv => h v (List.mem_cons_of_mem x hv)

theorem foldl_max_const (k : ℚ) (l : List ℚ) (h : ∀ v ∈ l, v = k) :
    l.foldl max k = k := by
  induction l with
  | nil => rfl
  | cons x xs ih =>
    have hx : x = k := h x (List.mem_cons_self x xs)
    simp only [List.foldl_cons, hx, max_self]
    exact ih fun v hv => h v (List.mem_cons_of_mem x hv)

/-- Constant sample data collapses the observed dynamic range:
`a.min() == a.max()`. -/
theorem listMin_eq_listMax_of_const (k : ℚ) (l : List ℚ)
    (h : ∀ v ∈ l, v = k) : listMin l = listMax l := by
  cases l with
  | nil => rfl
  | cons x xs =>
    have hx : x = k := h x (List.mem_cons_self x xs)
    have hxs : ∀ v ∈ xs, v = k := fun v hv => h v (List.mem_cons_of_mem x hv)
    simp only [listMin, listMax, hx]
    rw [foldl_min_const k xs hxs, foldl_max_const k xs hxs]

/-- C2: with no window parameters the normalizer maps the image minimum to 0
and the image maximum to 255 by the linear map of `[min, max]` onto
`[0, 255]` (`{10, 20, 30}` normalizes to `{0, 127, 255}`, and `127` is one of
the two values `127/128` the spec allows); when every sample is equal the
output is all zeros with the same dimensions as the input. -/
theorem minmax_fallback_correct (img imgc : List (List ℚ)) (k : ℚ)
    (hlt : imgMin img < imgMax img)
    (hconst : ∀ row ∈ imgc, ∀ v ∈ row, v = k) :
    rescale_to_uint8 img none none
      = img.map (List.map fun v =>
          toUint8 (minmaxSample (imgMin img) (imgMax img) v)) ∧
    toUint8 (minmaxSample (imgMin img) (imgMax img) (imgMin img)) = 0 ∧
    toUint8 (minmaxSample (imgMin img) (imgMax img) (imgMax img)) = 255 ∧
    rescale_to_uint8 [[10, 20, 30]] none none = [[0, 127, 255]] ∧
    rescale_to_uint8 imgc none none = imgc.map (List.map fun _ => 0) ∧
    (rescale_to_uint8 imgc none none).map List.length
      = imgc.map List.length := by
  have hne : imgMax img ≠ imgMin img := hlt.ne'
  have hconstFlat : ∀ v ∈ imgc.flatten, v = k := by
    intro v hv
    obtain ⟨row, hrow, hvrow⟩ := List.mem_flatten.mp hv
    exact hconst row hrow v hvrow
  have hmm : imgMin imgc = imgMax imgc :=
    listMin_eq_listMax_of_const k imgc.flatten hconstFlat
  have hdegen : rescale_to_uint8 imgc none none
      = imgc.map (List.map fun _ => 0) := by
    simp only [rescale_to_uint8]
    refine List.map_congr_left fun row hrow => ?_
    refine List.map_congr_left fun v hv => ?_
    simp [minmaxSample, hmm, toUint8_zero]
  refine ⟨rfl, ?_, ?_, ?_, hdegen, ?_⟩
  · simp [minmaxSample, hne, toUint8_zero]
  · have h1 : minmaxSample (imgMin img) (imgMax img) (imgMax img) = 1 := by
      simp only [minmaxSample, if_neg hne]
      exact div_self (sub_ne_zero.mpr hne)
    rw [h1, toUint8_one]
  · norm_num [rescale_to_uint8, imgMin, imgMax, listMin, listMax, minmaxSample,
      toUint8, clipQ, min_def, max_def]
    constructor <;> rfl
  · rw [hdegen]
    simp

/-- Witness for C2: `{10, 20, 30}` has a non-degenerate range, and the
constant image `[[5, 5], [5, 5]]` normalizes to `[[0, 0], [0, 0]]`. -/
theorem minmax_fallback_correct_witness :
    imgMin [[(10 : ℚ), 20, 30]] < imgMax [[(10 : ℚ), 20, 30]] ∧
    rescale_to_uint8 [[10, 20, 30]] none none = [[0, 127, 255]] ∧
    rescale_to_uint8 [[5, 5], [5, 5]] none none = [[0, 0], [0, 0]] := by
  have hlt : imgMin [[(10 : ℚ), 20, 30]] < imgMax [[(10 : ℚ), 20, 30]] := by
    norm_num [imgMin, imgMax, listMin, listMax, min_def, max_def]
  have hconst : ∀ row ∈ [[(5 : ℚ), 5], [5, 5]], ∀ v ∈ row, v = 5 := by
    intro row hrow v hv
    simp only [List.mem_cons, List.not_mem_nil, or_false] at hrow
    rcases hrow with h | h <;>
      (subst h; simp only [List.mem_cons, List.not_mem_nil, or_false] at hv;
       rcases hv with h | h <;> exact h)
  have main := minmax_fallback_correct [[(10 : ℚ), 20, 30]] [[5, 5], [5, 5]] 5
    hlt hconst
  exact ⟨hlt, main.2.2.2.1, by simpa using main.2.2.2.2.1⟩

/-- C5: rescaling computes `out[i][j] = sample[i][j] * slope + intercept` in
exact wide arithmetic (`ℚ` here, exactness being the point of the float
promotion); `slope=2, intercept=-100` on raw value `150` yields `200`; the
default parameters give the identity exactly; and coercion failure on either
parameter falls back to the identity rather than failing. -/
theorem rescale_correct (st it : Option TagVal) (s i : ℚ)
    (arr : List (List ℚ))
    (hs : slopeOf st = some s) (hi : interceptOf it = some i) :
    applyRescale st it arr = arr.map (List.map fun v => v * s + i) ∧
    applyRescale none none arr = arr ∧
    (∀ st' it' : Option TagVal, slopeOf st' = none ∨ interceptOf it' = none →
      applyRescale st' it' arr = arr) ∧
    applyRescale (some ⟨"2", some 2, some 2⟩)
      (some ⟨"-100", some (-100), some (-100)⟩) [[150]] = [[200]] := by
  refine ⟨by simp [applyRescale, hs, hi], ?_, ?_, ?_⟩
  · simp only [applyRescale, slopeOf, interceptOf, mul_one, add_zero]
    simp
  · intro st' it' h
    rcases h with h | h
    · simp [applyRescale, h]
    · cases hs' : slopeOf st' with
      | none => simp [applyRescale, hs']
      | some s' => simp [applyRescale, hs', h]
  · norm_num [applyRescale, slopeOf, interceptOf]

/-- Witness for C5: the default parameters (absent tags) leave `[[150]]`
unchanged, and `slope=2, intercept=-100` maps `150` to `200`. -/
theorem rescale_correct_witness :
    applyRescale none none [[(150 : ℚ)]] = [[(150 : ℚ)]] ∧
    applyRescale (some ⟨"2", some 2, some 2⟩)
      (some ⟨"-100", some (-100), some (-100)⟩) [[150]] = [[200]] :=
  ⟨(rescale_correct none none 1 0 [[(150 : ℚ)]] rfl rfl).2.1,
   (rescale_correct none none 1 0 [[(150 : ℚ)]] rfl rfl).2.2.2⟩

/-- Rescale step of the end-to-end scenario: `slope=1, intercept=0` leaves
the raw samples unchanged. -/
theorem ds3_rescale_eval :
    applyRescale ds3.RescaleSlope ds3.RescaleIntercept [[0, 128], [256, 512]]
      = [[(0 : ℚ), 128], [256, 512]] := by
  norm_num [applyRescale, slopeOf, interceptOf, ds3]

/-- Normalization step of the end-to-end scenario: window `[0, 256]` sends
`[0, 128, 256, 512]` to `[0, 127, 255, 255]` — the sample at the exact window
center lands on `127.5` and `astype(np.uint8)` truncates it to `127`. -/
theorem ds3_window_eval :
    rescale_to_uint8 [[(0 : ℚ), 128], [256, 512]] (some 128) (some 256)
      = [[0, 127], [255, 255]] := by
  norm_num [rescale_to_uint8, windowSample, toUint8, clipQ, min_def, max_def]
  omega

/-- Full evaluation of the render pipeline on the end-to-end scenario. -/
theorem ds3_render_eval :
    dicom_to_png_and_meta ds3 "u1" = .ok
      { meta :=
        { patient_id := none
          patient_name := none
          modality := none
          study_date := none
          series_description := none
          instance_number := none
          rows := 2
          cols := 2
          bits_allocated := 16
          photometric_interpretation := some "MONOCHROME2"
          window_center := some 128
          window_width := some 256
          image_path := "/media/images/u1.png"
          thumbnail_path := "/media/thumbnails/u1.png" }
        img := [[0, 127], [255, 255]]
        thumbSize := (2, 2) } := by
  simp only [dicom_to_png_and_meta, ds3, extractWindow, bind, Except.bind]
  rw [show (applyRescale (some ⟨"1", some 1, some 1⟩) (some ⟨"0", some 0, some 0⟩)
      [[0, 128], [256, 512]]) = [[(0 : ℚ), 128], [256, 512]] from ds3_rescale_eval]
  rw [ds3_window_eval]
  simp [g, applyPolarity, coerceIntTag, instanceNumberOf, pilThumbnail,
    imagePathOf, thumbPathOf, imgRelOf, thumbRelOf, Meta.mk.injEq]

/-- C4: polarity inversion replaces every already-normalized 8-bit sample `v`
with `255 - v` exactly when the photometric interpretation is `MONOCHROME1`
(`200` becomes `55`), applying it twice is the identity on 8-bit data, any
other or absent interpretation leaves the image unchanged, and the pipeline
applies it to the output of `_rescale_to_uint8`, never to the real-valued
intensities. -/
theorem polarity_correct (pi : Option String) (img img8 : List (List ℕ))
    (hpi : pi ≠ some "MONOCHROME1")
    (hb : ∀ row ∈ img8, ∀ v ∈ row, v ≤ 255)
    (ds : Dataset) (uid : String) (out : RenderOut)
    (hok : dicom_to_png_and_meta ds uid = .ok out) :
    applyPolarity (some "MONOCHROME1") img
      = img.map (List.map fun v => 255 - v) ∧
    applyPolarity (some "MONOCHROME1") [[200]] = [[55]] ∧
    applyPolarity pi img = img ∧
    applyPolarity (some "MONOCHROME1") (applyPolarity (some "MONOCHROME1") img8)
      = img8 ∧
    out.img = applyPolarity (g ds.PhotometricInterpretation)
      (rescale_to_uint8
        (applyRescale ds.RescaleSlope ds.RescaleIntercept (ds.pixelData.getD []))
        (extractWindow ds.WindowCenter ds.WindowWidth).1
        (extractWindow ds.WindowCenter ds.WindowWidth).2) := by
  refine ⟨by simp [applyPolarity], by simp [applyPolarity],
    by simp [applyPolarity, hpi], ?_, ?_⟩
  · have step : ∀ row ∈ img8, List.map (fun v => 255 - (255 - v)) row = row := by
      intro row hrow
      have h := List.map_congr_left (l := row)
        (f := fun v => 255 - (255 - v)) (g := id)
        fun v hv => by have := hb row hrow v hv; simp; omega
      simpa using h
    have core : List.map (List.map fun v => (255 : ℕ) - v)
        (List.map (List.map fun v => (255 : ℕ) - v) img8) = img8 := by
      rw [List.map_map]
      have h2 : img8.map ((List.map fun v => (255 : ℕ) - v) ∘
          (List.map fun v => (255 : ℕ) - v)) = img8.map id := by
        refine List.map_congr_left fun row hrow => ?_
        simp only [Function.comp_apply, List.map_map, id_eq]
        exact step row hrow
      simpa using h2
    simpa [applyPolarity] using core
  · cases hpd : ds.pixelData with
    | none =>
      rw [dicom_to_png_and_meta] at hok
      simp [hpd, bind, Except.bind] at hok
    | some a =>
      rw [dicom_to_png_and_meta] at hok
      simp only [hpd, bind, Except.bind] at hok
      split at hok
      · exact Except.noConfusion hok
      split at hok
      · exact Except.noConfusion hok
      split at hok
      · exact Except.noConfusion hok
      injection hok with h
      rw [← h]
      rfl

/-- Witness for C4: the non-`MONOCHROME1` case on `[[200]]`, the involution
on `[[200]]`, and the pipeline equation instantiated on the end-to-end
scenario dataset. -/
theorem polarity_correct_witness :
    applyPolarity (some "MONOCHROME2") [[200]] = [[200]] ∧
    applyPolarity (some "MONOCHROME1") (applyPolarity (some "MONOCHROME1")
      [[200]]) = [[200]] ∧
    applyPolarity (some "MONOCHROME1") [[200]] = [[55]] := by
  have h := polarity_correct (some "MONOCHROME2") [[200]] [[200]]
    (by simp) (by intro row hrow v hv; simp at hrow; subst hrow;
                  simp at hv; omega)
    ds3 "u1" _ ds3_render_eval
  exact ⟨h.2.2.1, h.2.2.2.1, h.2.1⟩

/-- C3 counterexample: on the end-to-end scenario input the pipeline emits
`[[0, 127], [255, 255]]`, not the claimed `[[0, 128], [255, 255]]` — the
sample equal to the window center maps to `127.5` and `astype(np.uint8)`
truncates it to `127`. -/
theorem end_to_end_truncation_cex :
    renderImg (dicom_to_png_and_meta ds3 "u1") = some [[0, 127], [255, 255]] ∧
    renderImg (dicom_to_png_and_meta ds3 "u1") ≠ some [[0, 128], [255, 255]] := by
  rw [ds3_render_eval]
  refine ⟨rfl, by decide⟩

/-- C3 (amended): the end-to-end scenario produces real values equal to the
raw values, normalized 8-bit output `[0, 127, 255, 255]` (the center sample
truncates to `127`, not `128`), no inversion, and a persisted record with
`rows=2`, `cols=2`, `window_center=128`, `window_width=256` and two distinct
artifact paths. -/
theorem end_to_end_scenario :
    applyRescale ds3.RescaleSlope ds3.RescaleIntercept [[0, 128], [256, 512]]
      = [[(0 : ℚ), 128], [256, 512]] ∧
    renderImg (dicom_to_png_and_meta ds3 "u1") = some [[0, 127], [255, 255]] ∧
    renderMeta (dicom_to_png_and_meta ds3 "u1") = some
      { patient_id := none
        patient_name := none
        modality := none
        study_date := none
        series_description := none
        instance_number := none
        rows := 2
        cols := 2
        bits_allocated := 16
        photometric_interpretation := some "MONOCHROME2"
        window_center := some 128
        window_width := some 256
        image_path := "/media/images/u1.png"
        thumbnail_path := "/media/thumbnails/u1.png" } ∧
    imagePathOf "u1" ≠ thumbPathOf "u1" := by
  refine ⟨ds3_rescale_eval, ?_, ?_, ?_⟩
  · rw [ds3_render_eval]; rfl
  · rw [ds3_render_eval]; rfl
  · decide


theorem intCoercible_of_error (t : Option TagVal) (d : ℤ) (e : String)
    (h : coerceIntTag t d = .error e) : intCoercible t = false := by
  cases t with
  | none => exact absurd h (by simp [coerceIntTag])
  | some v =>
    cases hv : v.toInt with
    | none => simp [intCoercible, hv]
    | some n => rw [coerceIntTag, hv] at h; exact Except.noConfusion h

theorem intCoercible_of_ok (t : Option TagVal) (d : ℤ) (n : ℤ)
    (h : coerceIntTag t d = .ok n) : intCoercible t = true := by
  cases t with
  | none => simp [intCoercible]
  | some v =>
    cases hv : v.toInt with
    | none => rw [coerceIntTag, hv] at h; exact Except.noConfusion h
    | some m => simp [intCoercible, hv]

/-- Inversion principle for a successful render: every persisted field is the
corresponding fault-tolerant extraction of the dataset, the paths follow the
uid patterns, and the thumbnail size comes from the normalized image. -/
theorem render_ok_fields (ds : Dataset) (uid : String) (out : RenderOut)
    (hok : dicom_to_png_and_meta ds uid = .ok out) :
    out.meta.patient_id = g ds.PatientID ∧
    out.meta.patient_name = g ds.PatientName ∧
    out.meta.modality = g ds.Modality ∧
    out.meta.study_date = g ds.StudyDate ∧
    out.meta.series_description = g ds.SeriesDescription ∧
    out.meta.instance_number = instanceNumberOf ds.InstanceNumber ∧
    out.meta.photometric_interpretation = g ds.PhotometricInterpretation ∧
    out.meta.window_center = (extractWindow ds.WindowCenter ds.WindowWidth).1 ∧
    out.meta.window_width = (extractWindow ds.WindowCenter ds.WindowWidth).2 ∧
    out.meta.image_path = imagePathOf uid ∧
    out.meta.thumbnail_path = thumbPathOf uid ∧
    out.thumbSize = pilThumbnail (out.img.headD []).length out.img.length := by
  cases hpd : ds.pixelData with
  | none =>
    rw [dicom_to_png_and_meta] at hok
    simp [hpd, bind, Except.bind] at hok
  | some a =>
    rw [dicom_to_png_and_meta] at hok
    simp only [hpd, bind, Except.bind] at hok
    split at hok
    · exact Except.noConfusion hok
    split at hok
    · exact Except.noConfusion hok
    split at hok
    · exact Except.noConfusion hok
    injection hok with h
    rw [← h]
    exact ⟨rfl, rfl, rfl, rfl, rfl, rfl, rfl, rfl, rfl, rfl, rfl, rfl⟩

/-- C6 counterexample: a dataset identical to the end-to-end scenario except
for a malformed `Rows` tag makes the whole decode (and hence the upload)
abort with an error, although the claim says a numeric coercion failure on
`Rows` degrades that field alone. -/
theorem rows_fault_aborts_cex :
    dicom_to_png_and_meta ds6 "u1" = .error "invalid literal for int()" ∧
    ds6.pixelData = some [[0, 128], [256, 512]] ∧
    (upload_dicom ⟨[], []⟩ (some ds6) "u1" true).2
      = .error ("Failed to process DICOM: " ++ "invalid literal for int()") := by
  have hrender : dicom_to_png_and_meta ds6 "u1"
      = .error "invalid literal for int()" := by
    rw [dicom_to_png_and_meta]
    simp [ds6, ds3, bind, Except.bind, coerceIntTag]
  refine ⟨hrender, rfl, ?_⟩
  rw [upload_dicom, hrender]

/-- C6 (amended): a missing or malformed optional tag among the string tags,
`InstanceNumber`, `WindowCenter` and `WindowWidth` degrades that field alone
to `None`/default and never aborts the decode — decode success depends only
on pixel data being present and on the `Rows`/`Columns`/`BitsAllocated`
coercions, and those three do abort the decode when a present value fails
`int()` coercion. -/
theorem tag_fault_isolation (ds : Dataset) (uid : String) (bad : TagVal)
    (hbad : bad.toInt = none) :
    renderOk (dicom_to_png_and_meta ds uid)
      = (ds.pixelData.isSome && intCoercible ds.Rows && intCoercible ds.Columns
          && intCoercible ds.BitsAllocated) ∧
    instanceNumberOf (some bad) = none ∧
    instanceNumberOf none = none ∧
    (∀ out : RenderOut, dicom_to_png_and_meta ds uid = .ok out →
      out.meta.patient_id = g ds.PatientID ∧
      out.meta.instance_number = instanceNumberOf ds.InstanceNumber ∧
      out.meta.window_center = (extractWindow ds.WindowCenter ds.WindowWidth).1 ∧
      out.meta.window_width = (extractWindow ds.WindowCenter ds.WindowWidth).2) := by
  refine ⟨?_, by simp [instanceNumberOf, hbad], rfl, ?_⟩
  · cases hpd : ds.pixelData with
    | none =>
      rw [dicom_to_png_and_meta]
      simp [hpd, bind, Except.bind, renderOk]
    | some a =>
      rw [dicom_to_png_and_meta]
      simp only [hpd, bind, Except.bind, Option.isSome_some, Bool.true_and]
      split
      · rename_i e1 h1
        simp [renderOk, intCoercible_of_error _ _ _ h1]
      · rename_i n1 h1
        rw [intCoercible_of_ok _ _ _ h1, Bool.true_and]
        split
        · rename_i e2 h2
          simp [renderOk, intCoercible_of_error _ _ _ h2]
        · rename_i n2 h2
          rw [intCoercible_of_ok _ _ _ h2, Bool.true_and]
          split
          · rename_i e3 h3
            simp [renderOk, intCoercible_of_error _ _ _ h3]
          · rename_i n3 h3
            simp [renderOk, intCoercible_of_ok _ _ _ h3]
  · intro out hok
    have h := render_ok_fields ds uid out hok
    exact ⟨h.1, h.2.2.2.2.2.1, h.2.2.2.2.2.2.2.1, h.2.2.2.2.2.2.2.2.1⟩

/-- Witness for C6 (amended) on the end-to-end dataset with a malformed
`InstanceNumber`-style tag value. -/
theorem tag_fault_isolation_witness :
    TagVal.toInt ⟨"oops", none, none⟩ = none ∧
    instanceNumberOf (some ⟨"oops", none, none⟩) = none ∧
    renderOk (dicom_to_png_and_meta ds3 "u1") = true := by
  have h := tag_fault_isolation ds3 "u1" ⟨"oops", none, none⟩ rfl
  refine ⟨rfl, h.2.1, ?_⟩
  rw [h.1]
  simp [ds3, intCoercible]

/-- C7 counterexample: when `create_document` fails after the two PNGs were
rendered, the upload reports an error yet both artifact files remain on
disk — persisted state is partial, not atomic. -/
theorem orphaned_artifacts_cex :
    (upload_dicom ⟨[], []⟩ (some ds3) "u1" false).1.files
      = ["images/u1.png", "thumbnails/u1.png"] ∧
    (upload_dicom ⟨[], []⟩ (some ds3) "u1" false).1.records = [] ∧
    (upload_dicom ⟨[], []⟩ (some ds3) "u1" false).2
      = .error ("Failed to process DICOM: " ++ "create_document failed") ∧
    (["images/u1.png", "thumbnails/u1.png"] : List String) ≠ [] := by
  rw [upload_dicom, ds3_render_eval]
  refine ⟨rfl, rfl, rfl, by decide⟩

/-- C7 (amended): every pipeline failure surfaces as a single caller-facing
error carrying the underlying cause message, and the structured record is
persisted exactly on full success — but artifact files written before a
`create_document` failure are not rolled back. -/
theorem upload_failure_semantics (st : SysState) (input : Option Dataset)
    (uid : String) (createOk : Bool) :
    (∀ m, (upload_dicom st input uid createOk).2 = .error m →
      (upload_dicom st input uid createOk).1.records = st.records) ∧
    (input = none → upload_dicom st input uid createOk
      = (st, .error ("Failed to process DICOM: " ++ "cannot read DICOM file"))) ∧
    (∀ ds e, input = some ds → dicom_to_png_and_meta ds uid = .error e →
      upload_dicom st input uid createOk
        = (st, .error ("Failed to process DICOM: " ++ e))) ∧
    (∀ ds out, input = some ds → dicom_to_png_and_meta ds uid = .ok out →
      createOk = true → upload_dicom st input uid createOk
        = (⟨st.files ++ [imgRelOf uid, thumbRelOf uid],
            st.records ++ [out.meta]⟩, .ok out.meta)) ∧
    (∀ ds out, input = some ds → dicom_to_png_and_meta ds uid = .ok out →
      createOk = false → upload_dicom st input uid createOk
        = (⟨st.files ++ [imgRelOf uid, thumbRelOf uid], st.records⟩,
           .error ("Failed to process DICOM: " ++ "create_document failed"))) := by
  refine ⟨?_, ?_, ?_, ?_, ?_⟩
  · intro m hm
    cases input with
    | none => rfl
    | some d =>
      cases hr : dicom_to_png_and_meta d uid with
      | error e => simp [upload_dicom, hr]
      | ok o =>
        cases createOk with
        | true => rw [upload_dicom, hr] at hm; exact Except.noConfusion hm
        | false => simp [upload_dicom, hr]
  · intro h; subst h; rfl
  · intro ds e h hr; subst h; rw [upload_dicom, hr]
  · intro ds out h hr hc; subst h; subst hc; rw [upload_dicom, hr]; rfl
  · intro ds out h hr hc; subst h; subst hc; rw [upload_dicom, hr]; rfl

/-- Witness for C7 (amended): a successful upload of the end-to-end study
persists the record and both files together, and a decode failure on a
malformed-`Rows` study leaves the store untouched while surfacing the cause. -/
theorem upload_failure_semantics_witness :
    (upload_dicom ⟨[], []⟩ (some ds3) "u1" true).1.records.length = 1 ∧
    upload_dicom ⟨[], []⟩ (some ds6) "u1" true
      = (⟨[], []⟩, .error ("Failed to process DICOM: "
          ++ "invalid literal for int()")) := by
  have hok := (upload_failure_semantics ⟨[], []⟩ (some ds3) "u1" true).2.2.2.1
    ds3 _ rfl ds3_render_eval rfl
  have herr := (upload_failure_semantics ⟨[], []⟩ (some ds6) "u1" true).2.2.1
    ds6 "invalid literal for int()" rfl
    (by rw [dicom_to_png_and_meta]
        simp [ds6, ds3, bind, Except.bind, coerceIntTag])
  refine ⟨?_, herr⟩
  rw [hok]
  rfl

/-- Image and thumbnail paths can never collide, whatever uids are drawn:
they differ at the character after the `/media/` prefix. -/
theorem imagePath_ne_thumbPath (u v : String) : imagePathOf u ≠ thumbPathOf v := by
  intro h
  have h7 : (imagePathOf u).data[7]? = (thumbPathOf v).data[7]? := by rw [h]
  have hL : (imagePathOf u).data[7]? = some 'i' := rfl
  have hR : (thumbPathOf v).data[7]? = some 't' := rfl
  rw [hL, hR] at h7
  exact absurd h7 (by decide)

/-- The uid is recoverable from the full image path: distinct uids give
distinct image paths. -/
theorem imagePathOf_inj (u v : String) (h : imagePathOf u = imagePathOf v) :
    u = v := by
  have hd : ("/media/".data ++ (("images/".data ++ u.data) ++ ".png".data))
      = ("/media/".data ++ (("images/".data ++ v.data) ++ ".png".data)) :=
    congrArg String.data h
  have h1 := List.append_cancel_left hd
  have h2 := List.append_cancel_right h1
  have h3 := List.append_cancel_left h2
  exact String.ext h3

/-- Distinct uids give distinct thumbnail paths. -/
theorem thumbPathOf_inj (u v : String) (h : thumbPathOf u = thumbPathOf v) :
    u = v := by
  have hd : ("/media/".data ++ (("thumbnails/".data ++ u.data) ++ ".png".data))
      = ("/media/".data ++ (("thumbnails/".data ++ v.data) ++ ".png".data)) :=
    congrArg String.data h
  have h1 := List.append_cancel_left hd
  have h2 := List.append_cancel_right h1
  have h3 := List.append_cancel_left h2
  exact String.ext h3

/-- C8: each upload's fresh uid is the shared filename stem of both
artifacts, the persisted references follow `/media/images/<id>.png` and
`/media/thumbnails/<id>.png` with the same `<id>`, and distinct uids (as
drawn by `uuid.uuid4().hex` for two sequential uploads) yield fully
distinct, non-colliding path pairs. -/
theorem artifact_path_uniqueness (uid uid' : String) (h : uid ≠ uid')
    (ds : Dataset) (out : RenderOut)
    (hok : dicom_to_png_and_meta ds uid = .ok out) :
    out.meta.image_path = imagePathOf uid ∧
    out.meta.thumbnail_path = thumbPathOf uid ∧
    imagePathOf uid = "/media/" ++ ("images/" ++ uid ++ ".png") ∧
    thumbPathOf uid = "/media/" ++ ("thumbnails/" ++ uid ++ ".png") ∧
    imagePathOf uid ≠ imagePathOf uid' ∧
    thumbPathOf uid ≠ thumbPathOf uid' ∧
    imagePathOf uid ≠ thumbPathOf uid' ∧
    thumbPathOf uid' ≠ imagePathOf uid ∧
    out.meta.image_path ≠ out.meta.thumbnail_path := by
  have hf := render_ok_fields ds uid out hok
  have h1 := hf.2.2.2.2.2.2.2.2.2.1
  have h2 := hf.2.2.2.2.2.2.2.2.2.2.1
  refine ⟨h1, h2, rfl, rfl, ?_, ?_, imagePath_ne_thumbPath uid uid',
    fun hq => imagePath_ne_thumbPath uid uid' hq.symm, ?_⟩
  · exact fun hq => h (imagePathOf_inj uid uid' hq)
  · exact fun hq => h (thumbPathOf_inj uid uid' hq)
  · rw [h1, h2]; exact imagePath_ne_thumbPath uid uid

/-- Witness for C8 on the end-to-end scenario with uids `u1` and `u2`. -/
theorem artifact_path_uniqueness_witness :
    "u1" ≠ "u2" ∧
    imagePathOf "u1" ≠ imagePathOf "u2" ∧
    imagePathOf "u1" ≠ thumbPathOf "u1" := by
  have h := artifact_path_uniqueness "u1" "u2" (by decide) ds3 _ ds3_render_eval
  exact ⟨by decide, h.2.2.2.2.1, fun hq => imagePath_ne_thumbPath "u1" "u1" hq⟩

theorem roundAspect_le (number : ℚ) (key : ℤ → ℚ) (bound : ℤ)
    (hnum : number ≤ (bound : ℚ)) (hb : 1 ≤ bound) :
    roundAspect number key ≤ bound := by
  unfold roundAspect
  have hceil : Int.ceil number ≤ bound := Int.ceil_le.mpr hnum
  have hfloor : Int.floor number ≤ bound := (Int.floor_le_ceil number).trans hceil
  have hpick : (if key (Int.floor number) ≤ key (Int.ceil number)
      then Int.floor number else Int.ceil number) ≤ bound := by
    split_ifs <;> assumption
  exact max_le hpick hb

/-- C9: the thumbnail is produced from the full-resolution normalized image;
both of its dimensions are at most 256; a `1024x512` source yields exactly
`(256, 128)` (ratio exactly 2:1); and an image already inside the `256x256`
box is returned unchanged (never upscaled). -/
theorem thumbnail_bounds (w h : ℕ) (hw : w ≤ 256) (hh : h ≤ 256)
    (w' h' : ℕ) (ds : Dataset) (uid : String) (out : RenderOut)
    (hok : dicom_to_png_and_meta ds uid = .ok out) :
    pilThumbnail 1024 512 = (256, 128) ∧
    (256 : ℕ) = 2 * 128 ∧
    pilThumbnail w h = (w, h) ∧
    (pilThumbnail w' h').1 ≤ 256 ∧
    (pilThumbnail w' h').2 ≤ 256 ∧
    out.thumbSize = pilThumbnail (out.img.headD []).length out.img.length := by
  have hpil : ∀ a b : ℕ, (pilThumbnail a b).1 ≤ 256 ∧ (pilThumbnail a b).2 ≤ 256 := by
    intro a b
    simp only [pilThumbnail]
    split_ifs with hfit hasp
    · exact ⟨hfit.1, hfit.2⟩
    · have hasp' : (a : ℚ) / (b : ℚ) ≤ 1 := by
        have h256 : (256 : ℚ) / 256 = 1 := by norm_num
        rw [h256] at hasp
        exact hasp
      have hnum : (256 : ℚ) * ((a : ℚ) / (b : ℚ)) ≤ ((256 : ℤ) : ℚ) := by
        push_cast
        nlinarith [hasp']
      have hle := roundAspect_le (256 * ((a : ℚ) / (b : ℚ)))
        (fun n => |(a : ℚ) / (b : ℚ) - (n : ℚ) / 256|) 256 hnum (by norm_num)
      constructor
      · simpa [Int.toNat_le] using hle
      · norm_num
    · have hasp' : 1 < (a : ℚ) / (b : ℚ) := by
        have h256 : (256 : ℚ) / 256 = 1 := by norm_num
        rw [h256] at hasp
        exact lt_of_not_ge hasp
      have hnum : (256 : ℚ) / ((a : ℚ) / (b : ℚ)) ≤ ((256 : ℤ) : ℚ) := by
        push_cast
        exact div_le_self (by norm_num) hasp'.le
      have hle := roundAspect_le (256 / ((a : ℚ) / (b : ℚ)))
        (fun n => if n = 0 then 0 else |(a : ℚ) / (b : ℚ) - 256 / (n : ℚ)|)
        256 hnum (by norm_num)
      constructor
      · norm_num
      · simpa [Int.toNat_le] using hle
  have hconcrete : pilThumbnail 1024 512 = (256, 128) := by
    have ha : ((1024 : ℕ) : ℚ) / ((512 : ℕ) : ℚ) = 2 := by norm_num
    simp only [pilThumbnail, ha]
    norm_num [roundAspect]
    rfl
  refine ⟨hconcrete, by norm_num, by simp [pilThumbnail, hw, hh], (hpil w' h').1,
    (hpil w' h').2, (render_ok_fields ds uid out hok).2.2.2.2.2.2.2.2.2.2.2⟩

/-- Witness for C9: the `2x2` end-to-end image is inside the box and is kept
as-is, and the `1024x512` case gives `(256, 128)`. -/
theorem thumbnail_bounds_witness :
    pilThumbnail 2 2 = (2, 2) ∧
    pilThumbnail 1024 512 = (256, 128) ∧
    (pilThumbnail 1000 3).1 ≤ 256 := by
  have h := thumbnail_bounds 2 2 (by norm_num) (by norm_num) 1000 3
    ds3 "u1" _ ds3_render_eval
  exact ⟨h.2.2.1, h.1, h.2.2.2.1⟩

/-- Min/max fallback on the scenario samples: range `[0, 512]` maps them to
`[0, 63, 127, 255]`. -/
theorem ds10_window_eval :
    rescale_to_uint8 [[(0 : ℚ), 128], [256, 512]] none none
      = [[0, 63], [127, 255]] := by
  norm_num [rescale_to_uint8, imgMin, imgMax, listMin, listMax, minmaxSample,
    toUint8, clipQ, min_def, max_def]
  omega

/-- Full evaluation of the render pipeline on the dataset whose
`WindowCenter` fails coercion while `WindowWidth` would coerce. -/
theorem ds10_render_eval :
    dicom_to_png_and_meta ds10 "u1" = .ok
      { meta :=
        { patient_id := none
          patient_name := none
          modality := none
          study_date := none
          series_description := none
          instance_number := none
          rows := 2
          cols := 2
          bits_allocated := 16
          photometric_interpretation := some "MONOCHROME2"
          window_center := none
          window_width := none
          image_path := "/media/images/u1.png"
          thumbnail_path := "/media/thumbnails/u1.png" }
        img := [[0, 63], [127, 255]]
        thumbSize := (2, 2) } := by
  simp only [dicom_to_png_and_meta, ds10, ds3, extractWindow, bind, Except.bind]
  rw [show (applyRescale (some ⟨"1", some 1, some 1⟩) (some ⟨"0", some 0, some 0⟩)
      [[0, 128], [256, 512]]) = [[(0 : ℚ), 128], [256, 512]] from ds3_rescale_eval]
  rw [ds10_window_eval]
  simp [g, applyPolarity, coerceIntTag, instanceNumberOf, pilThumbnail,
    imagePathOf, thumbPathOf, imgRelOf, thumbRelOf, Meta.mk.injEq]

/-- C10 counterexample: with a `WindowCenter` that fails `float()` coercion
and a `WindowWidth` that coerces to `256`, the decode succeeds and takes the
fallback branch, but the record stores `None` for BOTH window fields — the
successfully coercible `WindowWidth` is not stored, because the shared
exception handler aborts before it is coerced. -/
theorem window_coercion_asym_cex :
    ds10.WindowWidth = some ⟨"256", some 256, some 256⟩ ∧
    TagVal.toFloat ⟨"256", some 256, some 256⟩ = some 256 ∧
    (renderMeta (dicom_to_png_and_meta ds10 "u1")).map Meta.window_width
      = some none ∧
    (renderMeta (dicom_to_png_and_meta ds10 "u1")).map Meta.window_center
      = some none := by
  refine ⟨rfl, rfl, ?_, ?_⟩ <;> (rw [ds10_render_eval]; rfl)

/-- C10 (amended): windowing is applied exactly when both window parameters
coerced and the width is positive; when `WindowCenter` coerces and
`WindowWidth` is absent or fails coercion, normalization takes the min/max
fallback and the record stores the coerced center beside a `None` width; but
when `WindowCenter` itself fails coercion, `WindowWidth` is discarded too —
both fields persist as `None` even if `WindowWidth` would have coerced. -/
theorem window_coercion_faults (t u bad : TagVal) (c w' : ℚ)
    (ht : t.toFloat = some c) (hu : u.toFloat = none) (hb : bad.toFloat = none)
    (ww' : Option TagVal) (img : List (List ℚ))
    (ds : Dataset) (uid : String) (out : RenderOut)
    (hok : dicom_to_png_and_meta ds uid = .ok out) :
    (windowApplied (some c) (some w') = true ↔ 0 < w') ∧
    windowApplied (some c) none = false ∧
    windowApplied none (some w') = false ∧
    extractWindow (some t) (some u) = (some c, none) ∧
    extractWindow (some t) none = (some c, none) ∧
    extractWindow (some bad) ww' = (none, none) ∧
    rescale_to_uint8 img (some c) none
      = img.map (List.map fun v =>
          toUint8 (minmaxSample (imgMin img) (imgMax img) v)) ∧
    out.meta.window_center = (extractWindow ds.WindowCenter ds.WindowWidth).1 ∧
    out.meta.window_width = (extractWindow ds.WindowCenter ds.WindowWidth).2 := by
  have hf := render_ok_fields ds uid out hok
  refine ⟨?_, rfl, rfl, ?_, ?_, ?_, rfl, hf.2.2.2.2.2.2.2.1,
    hf.2.2.2.2.2.2.2.2.1⟩
  · simp [windowApplied]
  · simp [extractWindow, ht, hu]
  · simp [extractWindow, ht]
  · cases ww' <;> simp [extractWindow, hb]

/-- Witness for C10 (amended), instantiated with a coercible center `128`, a
non-coercible width value, and the end-to-end scenario render. -/
theorem window_coercion_faults_witness :
    extractWindow (some ⟨"128", some 128, some 128⟩) (some ⟨"abc", none, none⟩)
      = (some 128, none) ∧
    extractWindow (some ⟨"abc", none, none⟩) (some ⟨"256", some 256, some 256⟩)
      = (none, none) ∧
    windowApplied (some 128) none = false := by
  have h := window_coercion_faults ⟨"128", some 128, some 128⟩
    ⟨"abc", none, none⟩ ⟨"abc", none, none⟩ 128 256 rfl rfl rfl
    (some ⟨"256", some 256, some 256⟩) [[5]] ds3 "u1" _ ds3_render_eval
  exact ⟨h.2.2.2.1, h.2.2.2.2.2.1, h.2.1⟩
